import Mathlib

/-!
Verification of the memorial record lifecycle and storage-consistency
protocol of the `pet-memorial-sanctuary-v2` Cloudflare worker
(`src/worker/src/index.ts`), as a shallow embedding in Lean 4.

Modelling conventions:
* The KV namespace (`env.MEMORIALS_KV`) is an association list from slug to
  the stored memorial record.  The worker stores `JSON.stringify(record)`;
  since serialization of a record value is deterministic and injective,
  record-value equality stands for byte equality of the stored JSON.
* The R2 object store is the list of keys of the blobs it currently holds,
  together with an oracle `fail : List String → List String` giving, for a
  batch `DeleteObjectsCommand`, the sub-batch of keys whose deletion the
  store reports as failed (`DeleteObjectsCommandOutput.Errors`).
* `new URL(u).pathname.substring(1)` (the WHATWG URL parser, a platform
  library) is abstracted as a parameter `uk : String → Option String`,
  `none` modelling a parse failure (the `catch` branch).
* JSON response bodies are modelled as association lists of field name to a
  small JSON value type, so the presence or absence of a field (after
  JavaScript `delete obj.editKey`) is observable.
* `R2_BUCKET_NAME` is assumed configured (the wrangler.toml ships it); the
  configuration-error `throw` branches are therefore not taken.
-/

/-- Stored memorial record.  Fields of the worker's `Memorial` interface;
`avatar` is carried because the worker stores the creation body verbatim
(`JSON.stringify(newMemorial)`) and the client types
(`src/src/types.ts`) declare `avatar?: string | null`, so a stored JSON
record can contain the field even though the worker's own interface
omits it. `none` models an absent-or-null avatar. -/
structure Memorial where
  slug : String
  petName : String
  shortMessage : String
  memorialContent : String
  images : List String
  avatar : Option String
  createdAt : String
  editKey : String
deriving DecidableEq, Repr

/-- Body of a PUT request (`Partial<Memorial>` / `MemorialUpdatePayload`).
`none` models a field that is absent (or `null`: the worker only reads
these fields through `??` and `|| []`, which treat the two alike). For
`avatar`, `some none` models an explicit JSON `null` and `some (some u)`
a URL, matching `avatar?: string | null`. -/
structure UpdatePayload where
  petName : Option String
  shortMessage : Option String
  memorialContent : Option String
  images : Option (List String)
  avatar : Option (Option String)
deriving DecidableEq, Repr

/-- The payload that touches nothing: every field absent. -/
def emptyPayload : UpdatePayload :=
  { petName := none, shortMessage := none, memorialContent := none,
    images := none, avatar := none }

/-- World state: the KV namespace (slug ↦ record) and the set of blob keys
currently present in the R2 bucket. -/
structure WorldState where
  kv : List (String × Memorial)
  blobs : List String
deriving DecidableEq, Repr

/-- `env.MEMORIALS_KV.get(slug)` (parsed): first binding of the key. -/
def kvGet (kv : List (String × Memorial)) (slug : String) : Option Memorial :=
  match kv with
  | [] => none
  | p :: rest => if p.1 = slug then some p.2 else kvGet rest slug

/-- `env.MEMORIALS_KV.put(slug, value)`: overwrite or insert. -/
def kvPut (kv : List (String × Memorial)) (slug : String) (m : Memorial) :
    List (String × Memorial) :=
  match kv with
  | [] => [(slug, m)]
  | p :: rest => if p.1 = slug then (slug, m) :: rest else p :: kvPut rest slug m

/-- `env.MEMORIALS_KV.delete(slug)`: every binding of the key is removed. -/
def kvDelete (kv : List (String × Memorial)) (slug : String) :
    List (String × Memorial) :=
  match kv with
  | [] => []
  | p :: rest => if p.1 = slug then kvDelete rest slug else p :: kvDelete rest slug

/-- JSON values occurring in the worker's response bodies. -/
inductive JVal where
  | s : String → JVal
  | arr : List String → JVal
  | b : Bool → JVal
  | nul : JVal
deriving DecidableEq, Repr

/-- A JSON object: association list of field name to value. -/
abbrev JObj := List (String × JVal)

/-- JavaScript `delete obj[k]`: the object without field `k`. -/
def eraseField (o : JObj) (k : String) : JObj :=
  match o with
  | [] => []
  | p :: rest => if p.1 = k then eraseField rest k else p :: eraseField rest k

/-- JavaScript property access `obj[k]`: first binding of the field. -/
def getField (o : JObj) (k : String) : Option JVal :=
  match o with
  | [] => none
  | p :: rest => if p.1 = k then some p.2 else getField rest k

/-- The JSON object a stored `Memorial` parses to (field order as in the
record; the `avatar` field is present only when the record carries one). -/
def jObjOf (m : Memorial) : JObj :=
  [("slug", JVal.s m.slug), ("petName", JVal.s m.petName),
   ("shortMessage", JVal.s m.shortMessage),
   ("memorialContent", JVal.s m.memorialContent),
   ("images", JVal.arr m.images)]
  ++ (match m.avatar with | none => [] | some a => [("avatar", JVal.s a)])
  ++ [("createdAt", JVal.s m.createdAt), ("editKey", JVal.s m.editKey)]

/-- Summary projection of POST /api/memorials/list:
`{slug, petName, createdAt}`. -/
def summaryObj (m : Memorial) : JObj :=
  [("slug", JVal.s m.slug), ("petName", JVal.s m.petName),
   ("createdAt", JVal.s m.createdAt)]

/-- POST /api/memorials/list body: look up each slug, silently drop the
ones that do not resolve, project the rest. -/
def listSummaries (st : WorldState) (slugs : List String) : List JObj :=
  (slugs.filterMap (kvGet st.kv)).map summaryObj

/-- Result of one route handler: the world state after the call, the HTTP
status, the JSON body (when the handler returns one), and the batch
delete requests issued to R2 (each a list of object keys). -/
structure HResult where
  state : WorldState
  status : Nat
  body : Option JObj
  deleteRequests : List (List String)
deriving DecidableEq, Repr

/-- POST /api/memorial: create.  `!newMemorial.slug` etc. are JavaScript
falsiness checks, true exactly on the empty string for string fields. -/
def handleCreate (st : WorldState) (body : Memorial) : HResult :=
  if body.slug = "" ∨ body.petName = "" ∨ body.editKey = "" then
    ⟨st, 400, none, []⟩
  else
    match kvGet st.kv body.slug with
    | some _ => ⟨st, 409, none, []⟩
    | none =>
        ⟨{ st with kv := kvPut st.kv body.slug body }, 201,
         some [("success", JVal.b true), ("slug", JVal.s body.slug)], []⟩

/-- GET /api/memorial/:slug: read, stripping `editKey`
(`delete memorial.editKey`). -/
def handleRead (st : WorldState) (slug : String) : HResult :=
  match kvGet st.kv slug with
  | none => ⟨st, 404, none, []⟩
  | some m => ⟨st, 200, some (eraseField (jObjOf m) "editKey"), []⟩

/-- Key extraction for a batch delete: for each URL,
`new URL(u).pathname.substring(1)` (abstracted as `uk`), keeping only
keys that parsed and are non-empty (`if (key) … .filter(obj.Key !== '')`). -/
def objectKeysOf (uk : String → Option String) (urls : List String) :
    List String :=
  urls.filterMap (fun u =>
    match uk u with
    | none => none
    | some k => if k = "" then none else some k)

/-- One `DeleteObjectsCommand` against R2: keys the oracle reports as
failed stay in the bucket, the others are removed.  Returns the bucket
contents afterwards and the `Errors` list. -/
def r2DeleteObjects (fail : List String → List String)
    (blobs keys : List String) : List String × List String :=
  let errs := fail keys
  (blobs.filter (fun k => !(keys.contains k && !errs.contains k)), errs)

/-- Image reconciliation of the PUT handler: from the bucket, the old image
list and the request's `images` field, compute the bucket afterwards, the
delete requests issued and the reported errors.  Mirrors
`originalImageUrls.filter(url => !newImageUrls.has(url))` with
`newImageUrls = new Set(updateData.images || [])` and the two
non-emptiness guards around the `DeleteObjectsCommand`. -/
def reconcileImages (uk : String → Option String)
    (fail : List String → List String) (blobs : List String)
    (oldImages : List String) (payloadImages : Option (List String)) :
    List String × List (List String) × List String :=
  let newImageUrls := payloadImages.getD []
  let imagesToDelete := oldImages.filter (fun u => !newImageUrls.contains u)
  if imagesToDelete = [] then (blobs, [], [])
  else
    let keys := objectKeysOf uk imagesToDelete
    if keys = [] then (blobs, [], [])
    else
      let (nb, errs) := r2DeleteObjects fail blobs keys
      (nb, [keys], errs)

/-- Merged record written by a successful PUT: object spread of the stored
record, with the four fields the worker merges through `??`.  `slug`,
`createdAt`, `editKey` and `avatar` come from the spread — the worker
never reads `updateData.avatar`. -/
def mergeUpdate (stored : Memorial) (p : UpdatePayload) : Memorial :=
  { stored with
    petName := p.petName.getD stored.petName,
    shortMessage := p.shortMessage.getD stored.shortMessage,
    memorialContent := p.memorialContent.getD stored.memorialContent,
    images := p.images.getD stored.images }

/-- PUT /api/memorial/:slug once the record is found: key check, image
reconciliation (a non-empty `Errors` list makes the handler `throw`,
caught as a 500 with the KV entry untouched), then the KV write and the
200 body with `editKey` deleted. -/
def handleUpdateFound (uk : String → Option String)
    (fail : List String → List String) (st : WorldState) (slug : String)
    (stored : Memorial) (ek : String) (p : UpdatePayload) : HResult :=
  if stored.editKey ≠ ek then ⟨st, 403, none, []⟩
  else
    let r := reconcileImages uk fail st.blobs stored.images p.images
    if r.2.2 ≠ [] then ⟨⟨st.kv, r.1⟩, 500, none, r.2.1⟩
    else
      let updated := mergeUpdate stored p
      ⟨⟨kvPut st.kv slug updated, r.1⟩, 200,
       some (eraseField (jObjOf updated) "editKey"), r.2.1⟩

/-- PUT /api/memorial/:slug.  The `X-Edit-Key` header is `hdr` (`none` =
absent); `!editKey` also rejects an empty header value.  The 401 check
precedes every KV and R2 access. -/
def handleUpdate (uk : String → Option String)
    (fail : List String → List String) (st : WorldState) (slug : String)
    (hdr : Option String) (p : UpdatePayload) : HResult :=
  match hdr with
  | none => ⟨st, 401, none, []⟩
  | some ek =>
    if ek = "" then ⟨st, 401, none, []⟩
    else
      match kvGet st.kv slug with
      | none => ⟨st, 404, none, []⟩
      | some stored => handleUpdateFound uk fail st slug stored ek p

/-- DELETE /api/memorial/:slug once the record is found: key check, batch
deletion of the image blobs (guarded by `images.length > 0` and
`objectKeys.length > 0`; a non-empty `Errors` list throws, caught as a
500 with the KV entry untouched), then `MEMORIALS_KV.delete` and 204. -/
def handleDeleteFound (uk : String → Option String)
    (fail : List String → List String) (st : WorldState) (slug : String)
    (m : Memorial) (ek : String) : HResult :=
  if m.editKey ≠ ek then ⟨st, 403, none, []⟩
  else
    let r :=
      if m.images = [] then (st.blobs, ([] : List (List String)), ([] : List String))
      else
        let keys := objectKeysOf uk m.images
        if keys = [] then (st.blobs, [], [])
        else
          let (nb, errs) := r2DeleteObjects fail st.blobs keys
          (nb, [keys], errs)
    if r.2.2 ≠ [] then ⟨⟨st.kv, r.1⟩, 500, none, r.2.1⟩
    else ⟨⟨kvDelete st.kv slug, r.1⟩, 204, none, r.2.1⟩

/-- DELETE /api/memorial/:slug.  Missing (or empty) `X-Edit-Key` is a 401
before any KV access; an absent record with a key present is the
idempotent 204. -/
def handleDelete (uk : String → Option String)
    (fail : List String → List String) (st : WorldState) (slug : String)
    (hdr : Option String) : HResult :=
  match hdr with
  | none => ⟨st, 401, none, []⟩
  | some ek =>
    if ek = "" then ⟨st, 401, none, []⟩
    else
      match kvGet st.kv slug with
      | none => ⟨st, 204, none, []⟩
      | some m => handleDeleteFound uk fail st slug m ek

/-! Helper lemmas about the store primitives and field maps. -/

theorem kvGet_kvPut_self (kv : List (String × Memorial)) (s : String)
    (m : Memorial) : kvGet (kvPut kv s m) s = some m := by
  induction kv with
  | nil => simp [kvGet, kvPut]
  | cons p t ih =>
    by_cases hp : p.1 = s
    · simp [kvGet, kvPut, hp]
    · simpa [kvGet, kvPut, hp] using ih

theorem kvGet_kvDelete_self (kv : List (String × Memorial)) (s : String) :
    kvGet (kvDelete kv s) s = none := by
  induction kv with
  | nil => rfl
  | cons p t ih =>
    by_cases hp : p.1 = s
    · simpa [kvDelete, hp] using ih
    · simpa [kvGet, kvDelete, hp] using ih

theorem getField_eraseField_self (o : JObj) (k : String) :
    getField (eraseField o k) k = none := by
  induction o with
  | nil => rfl
  | cons p t ih =>
    by_cases hp : p.1 = k
    · simpa [eraseField, hp] using ih
    · simpa [getField, eraseField, hp] using ih

theorem getField_eraseField_ne (o : JObj) (k f : String) (h : f ≠ k) :
    getField (eraseField o k) f = getField o f := by
  induction o with
  | nil => rfl
  | cons p t ih =>
    by_cases hp : p.1 = k
    · simpa [getField, eraseField, hp, Ne.symm h] using ih
    · by_cases hf : p.1 = f
      · simp [getField, eraseField, hp, hf, h]
      · simpa [getField, eraseField, hp, hf] using ih

/-! ## C10: missing edit-key header -/

/-- C10: an Update or Delete request with no `X-Edit-Key` header is
rejected with 401 before the record store is consulted — the result is
the same for every store state, with no store mutation and no object
deletion — even when no record exists for the slug; in particular,
Delete on a non-existent slug without a key yields 401, while the
idempotent 204 is returned exactly when a (non-empty) key header is
present. -/
theorem missing_key_rejected_before_store
    (uk : String → Option String) (fail : List String → List String)
    (st : WorldState) (slug : String) (p : UpdatePayload) :
    handleDelete uk fail st slug none = ⟨st, 401, none, []⟩ ∧
    handleUpdate uk fail st slug none p = ⟨st, 401, none, []⟩ ∧
    (∀ ek : String, ek ≠ "" → kvGet st.kv slug = none →
      handleDelete uk fail st slug (some ek) = ⟨st, 204, none, []⟩) := by
  refine ⟨rfl, rfl, fun ek hek hkv => ?_⟩
  simp [handleDelete, hek, hkv]

/-- Witness for C10 at a concrete empty store. -/
theorem missing_key_rejected_before_store_witness :
    handleDelete (fun _ => none) (fun _ => []) ⟨[], []⟩ "ghost-99" none =
      ⟨⟨[], []⟩, 401, none, []⟩ ∧
    handleDelete (fun _ => none) (fun _ => []) ⟨[], []⟩ "ghost-99" (some "k") =
      ⟨⟨[], []⟩, 204, none, []⟩ := by
  have h := missing_key_rejected_before_store (fun _ => none) (fun _ => [])
    ⟨[], []⟩ "ghost-99" emptyPayload
  exact ⟨h.1, h.2.2 "k" (by decide) (by rfl)⟩

/-! ## C4: wrong or missing edit key never mutates -/

/-- C4: for every stored record, an Update or Delete call with a missing
edit key (absent header, or the empty value JavaScript treats as
missing) is rejected with 401, and one with a wrong key is rejected
with 403; in all cases the whole state — in particular the stored
record — is unchanged, and no delete request is issued. -/
theorem auth_failure_never_mutates
    (uk : String → Option String) (fail : List String → List String)
    (st : WorldState) (slug : String) (m : Memorial) (p : UpdatePayload)
    (k : String) (hm : kvGet st.kv slug = some m)
    (hne : k ≠ "") (hwrong : k ≠ m.editKey) :
    handleUpdate uk fail st slug none p = ⟨st, 401, none, []⟩ ∧
    handleDelete uk fail st slug none = ⟨st, 401, none, []⟩ ∧
    handleUpdate uk fail st slug (some "") p = ⟨st, 401, none, []⟩ ∧
    handleDelete uk fail st slug (some "") = ⟨st, 401, none, []⟩ ∧
    handleUpdate uk fail st slug (some k) p = ⟨st, 403, none, []⟩ ∧
    handleDelete uk fail st slug (some k) = ⟨st, 403, none, []⟩ := by
  refine ⟨rfl, rfl, by simp [handleUpdate], by simp [handleDelete], ?_, ?_⟩
  · simp [handleUpdate, handleUpdateFound, hm, hne, Ne.symm hwrong]
  · simp [handleDelete, handleDeleteFound, hm, hne, Ne.symm hwrong]

/-! Concrete sample data used by witnesses and counterexamples. -/

/-- Sample URL-to-key map: the pathname component of the sample URLs. -/
def ukEx : String → Option String := fun u =>
  if u = "https://img.example/a.png" then some "a.png"
  else if u = "https://img.example/b.png" then some "b.png"
  else if u = "https://img.example/c.png" then some "c.png"
  else if u = "https://img.example/d.png" then some "d.png"
  else if u = "https://img.example/av.png" then some "av.png"
  else none

/-- Object store oracle that reports no deletion failures. -/
def noFailEx : List String → List String := fun _ => []

/-- Object store oracle that reports every requested key as failed. -/
def allFailEx : List String → List String := fun ks => ks

/-- Sample stored record. -/
def mEx : Memorial :=
  { slug := "milo-1", petName := "Milo", shortMessage := "sm",
    memorialContent := "mc",
    images := ["https://img.example/a.png", "https://img.example/b.png",
               "https://img.example/c.png"],
    avatar := some "https://img.example/av.png",
    createdAt := "2024-01-01T00:00:00Z", editKey := "k1" }

/-- Sample world: `mEx` stored under its slug, its blobs in the bucket. -/
def stEx : WorldState :=
  ⟨[("milo-1", mEx)], ["a.png", "b.png", "c.png", "av.png"]⟩

/-! ## C5: no read path exposes the edit key -/

/-- C5: the body of Read(slug) and every element of the Batch-summarize
array contain no `editKey` field, for every store state (hence also
immediately after creation): the read path deletes the field, the batch
path projects only slug, petName and createdAt. -/
theorem read_paths_strip_editKey :
    (∀ (st : WorldState) (slug : String) (o : JObj),
       (handleRead st slug).body = some o → getField o "editKey" = none) ∧
    (∀ (st : WorldState) (slugs : List String) (o : JObj),
       o ∈ listSummaries st slugs → getField o "editKey" = none) := by
  constructor
  · intro st slug o h
    cases hkv : kvGet st.kv slug with
    | none => simp [handleRead, hkv] at h
    | some m =>
      simp [handleRead, hkv] at h
      rw [← h]
      exact getField_eraseField_self _ _
  · intro st slugs o h
    rcases List.mem_map.mp h with ⟨m, _, rfl⟩
    simp [summaryObj, getField]

/-- Witness for C5: a concrete read and a concrete mixed batch, both free
of the `editKey` field. -/
theorem read_paths_strip_editKey_witness :
    getField (eraseField (jObjOf mEx) "editKey") "editKey" = none ∧
    (∀ o ∈ listSummaries stEx ["milo-1", "ghost-99"],
       getField o "editKey" = none) := by
  refine ⟨read_paths_strip_editKey.1 stEx "milo-1"
    (eraseField (jObjOf mEx) "editKey") (by rfl),
    fun o ho => read_paths_strip_editKey.2 stEx ["milo-1", "ghost-99"] o ho⟩

/-! ## C9: create/read round trip -/

/-- C9: creating a valid record and then reading its slug returns 200 with
a body equal to the input record in every field, except that the
`editKey` field is entirely absent. -/
theorem create_read_roundtrip (st : WorldState) (b : Memorial)
    (hs : b.slug ≠ "") (hp : b.petName ≠ "") (hk : b.editKey ≠ "")
    (hfree : kvGet st.kv b.slug = none) :
    (handleCreate st b).status = 201 ∧
    (handleRead (handleCreate st b).state b.slug).status = 200 ∧
    (handleRead (handleCreate st b).state b.slug).body =
      some (eraseField (jObjOf b) "editKey") ∧
    getField (eraseField (jObjOf b) "editKey") "editKey" = none ∧
    (∀ f, f ≠ "editKey" →
      getField (eraseField (jObjOf b) "editKey") f = getField (jObjOf b) f) := by
  have hc : handleCreate st b =
      ⟨⟨kvPut st.kv b.slug b, st.blobs⟩, 201,
       some [("success", JVal.b true), ("slug", JVal.s b.slug)], []⟩ := by
    simp [handleCreate, hs, hp, hk, hfree]
  refine ⟨by rw [hc], ?_, ?_,
    getField_eraseField_self _ _, fun f hf => getField_eraseField_ne _ _ _ hf⟩
  · rw [hc]; simp [handleRead, kvGet_kvPut_self]
  · rw [hc]; simp [handleRead, kvGet_kvPut_self]

/-- Witness for C9 at the sample record and the empty store. -/
theorem create_read_roundtrip_witness :
    (handleCreate ⟨[], []⟩ mEx).status = 201 ∧
    (handleRead (handleCreate ⟨[], []⟩ mEx).state "milo-1").body =
      some (eraseField (jObjOf mEx) "editKey") := by
  have h := create_read_roundtrip ⟨[], []⟩ mEx (by decide) (by decide)
    (by decide) (by rfl)
  exact ⟨h.1, h.2.2.1⟩

/-! ## C6: slug uniqueness at creation -/

/-- C6 counterexample: with `mEx` stored under "milo-1", a second Create
for the same slug whose payload has an empty petName is rejected by the
input-validation guard with 400, not with the 409 conflict the claim
promises for every payload (validation runs before the uniqueness
check). -/
theorem create_conflict_counterexample :
    (handleCreate ⟨[("milo-1", mEx)], []⟩
      { slug := "milo-1", petName := "", shortMessage := "",
        memorialContent := "", images := [], avatar := none,
        createdAt := "2024-02-02", editKey := "k2" }).status = 400 ∧
    (400 : Nat) ≠ 409 := by
  exact ⟨by rfl, by decide⟩

/-- C6 (amended): once Create(s, …) has succeeded (so `s` is non-empty and
a record is stored under `s`), a second Create for slug `s` leaves the
store unchanged and never overwrites the stored record; it fails with
the 409 conflict for every payload passing input validation (non-empty
petName and editKey), and with 400 for a payload failing validation;
after a Delete(s) has succeeded, a valid Create(s, …) succeeds again. -/
theorem create_conflict_amended (st : WorldState) (s : String)
    (m b : Memorial) (hs : s ≠ "") (hm : kvGet st.kv s = some m)
    (hbs : b.slug = s) :
    (handleCreate st b).state = st ∧
    kvGet (handleCreate st b).state.kv s = some m ∧
    ((handleCreate st b).status = 400 ∨ (handleCreate st b).status = 409) ∧
    (b.petName ≠ "" → b.editKey ≠ "" → handleCreate st b = ⟨st, 409, none, []⟩) ∧
    (∀ (uk : String → Option String) (fail : List String → List String)
       (hdr : Option String),
       (handleDelete uk fail st s hdr).status = 204 →
       b.petName ≠ "" → b.editKey ≠ "" →
       (handleCreate (handleDelete uk fail st s hdr).state b).status = 201) := by
  have hstate : (handleCreate st b).state = st ∧
      ((handleCreate st b).status = 400 ∨ (handleCreate st b).status = 409) := by
    by_cases hv : b.slug = "" ∨ b.petName = "" ∨ b.editKey = ""
    · simp [handleCreate, hv]
    · have hv' : ¬(s = "" ∨ b.petName = "" ∨ b.editKey = "") := by
        rw [← hbs]; exact hv
      simp [handleCreate, hbs, hv', hm]
  refine ⟨hstate.1, by rw [hstate.1]; exact hm, hstate.2, ?_, ?_⟩
  · intro hbp hbk
    simp [handleCreate, hbs, hs, hbp, hbk, hm]
  · intro uk fail hdr h204 hbp hbk
    match hdr with
    | none => simp [handleDelete] at h204
    | some ek =>
      by_cases he : ek = ""
      · simp [handleDelete, he] at h204
      · rw [handleDelete] at h204 ⊢
        simp only [he, if_neg he, hm] at h204 ⊢
        rw [handleDeleteFound] at h204 ⊢
        by_cases hkey : m.editKey ≠ ek
        · simp [hkey] at h204
        · simp only [hkey, if_neg hkey, ite_not] at h204 ⊢
          by_cases herr :
            (if m.images = [] then
               (st.blobs, ([] : List (List String)), ([] : List String))
             else
               let keys := objectKeysOf uk m.images
               if keys = [] then (st.blobs, [], [])
               else
                 let (nb, errs) := r2DeleteObjects fail st.blobs keys
                 (nb, [keys], errs)).2.2 = []
          · simp only [herr, if_pos herr]
            simp [handleCreate, hbs, hs, hbp, hbk, kvGet_kvDelete_self]
          · simp [herr] at h204

/-- Second create payload for the C6 witness: valid, same slug as `mEx`. -/
def bEx : Memorial :=
  { slug := "milo-1", petName := "Rex", shortMessage := "",
    memorialContent := "", images := [], avatar := none,
    createdAt := "2024-02-02", editKey := "k2" }

/-- Witness for the amended C6: a concrete second create conflicts with
409 and leaves the store unchanged, and after a successful delete the
same create succeeds with 201. -/
theorem create_conflict_amended_witness :
    handleCreate stEx bEx = ⟨stEx, 409, none, []⟩ ∧
    (handleCreate (handleDelete ukEx noFailEx stEx "milo-1" (some "k1")).state
      bEx).status = 201 := by
  have h := create_conflict_amended stEx "milo-1" mEx bEx
    (by decide) (by rfl) (by rfl)
  exact ⟨h.2.2.2.1 (by decide) (by decide),
         h.2.2.2.2 ukEx noFailEx (some "k1") (by rfl) (by decide) (by decide)⟩

/-! ## C1: image reconciliation on update -/

/-- C1: for a stored record with images `[A, B, C]` (with `B` distinct
from the kept URLs and mapping to a non-empty storage key `kB`), an
authorized Update supplying `images = [A, C]` issues exactly one delete
request, for `B`'s key alone; the bucket afterwards lacks exactly `kB`
(every other blob is untouched); and the record persists with
`images = [A, C]`.  An Update supplying `[A, B, C, D]` with a brand-new
`D` issues no delete request at all, leaves the bucket untouched, and
persists `images = [A, B, C, D]`. -/
theorem update_image_reconciliation
    (uk : String → Option String) (fail : List String → List String)
    (st : WorldState) (slug : String) (stored : Memorial)
    (A B C D kB : String) (p q : UpdatePayload)
    (hm : kvGet st.kv slug = some stored)
    (himg : stored.images = [A, B, C])
    (hek : stored.editKey ≠ "")
    (hBA : B ≠ A) (hBC : B ≠ C)
    (hkB : uk B = some kB) (hkB0 : kB ≠ "")
    (hfail : fail [kB] = [])
    (hp : p.images = some [A, C])
    (hq : q.images = some [A, B, C, D]) :
    (handleUpdate uk fail st slug (some stored.editKey) p).status = 200 ∧
    (handleUpdate uk fail st slug (some stored.editKey) p).deleteRequests
      = [[kB]] ∧
    (handleUpdate uk fail st slug (some stored.editKey) p).state.blobs
      = st.blobs.filter (fun k => k != kB) ∧
    kvGet (handleUpdate uk fail st slug (some stored.editKey) p).state.kv slug
      = some (mergeUpdate stored p) ∧
    (mergeUpdate stored p).images = [A, C] ∧
    (handleUpdate uk fail st slug (some stored.editKey) q).status = 200 ∧
    (handleUpdate uk fail st slug (some stored.editKey) q).deleteRequests
      = [] ∧
    (handleUpdate uk fail st slug (some stored.editKey) q).state.blobs
      = st.blobs ∧
    kvGet (handleUpdate uk fail st slug (some stored.editKey) q).state.kv slug
      = some (mergeUpdate stored q) ∧
    (mergeUpdate stored q).images = [A, B, C, D] := by
  have hred : ∀ (pp : UpdatePayload) (rr : List String × List (List String) × List String),
      reconcileImages uk fail st.blobs stored.images pp.images = rr →
      rr.2.2 = [] →
      handleUpdate uk fail st slug (some stored.editKey) pp =
        ⟨⟨kvPut st.kv slug (mergeUpdate stored pp), rr.1⟩, 200,
         some (eraseField (jObjOf (mergeUpdate stored pp)) "editKey"),
         rr.2.1⟩ := by
    intro pp rr hr hz
    simp [handleUpdate, hek, hm, handleUpdateFound, hr, hz]
  have hdel : List.filter (fun u => !([A, C].contains u)) [A, B, C] = [B] := by
    simp [List.contains_cons, hBA, hBC]
  have hrecP : reconcileImages uk fail st.blobs stored.images p.images =
      (st.blobs.filter (fun k => k != kB), [[kB]], []) := by
    rw [himg, hp]
    simp only [reconcileImages, Option.getD_some]
    rw [hdel]
    simp only [reduceCtorEq, if_neg (List.cons_ne_nil B []), objectKeysOf,
      List.filterMap_cons, List.filterMap_nil, hkB, if_neg hkB0]
    simp only [r2DeleteObjects, hfail]
    simp only [if_neg (List.cons_ne_nil kB []), List.contains_nil,
      Bool.not_false, Bool.and_true]
    refine Prod.ext ?_ rfl
    refine List.filter_congr ?_
    intro k _
    by_cases h : k = kB
    · simp [h]
    · simp [List.contains_cons, bne, h]
  have hdel2 : List.filter (fun u => !([A, B, C, D].contains u)) [A, B, C]
      = [] := by
    simp [List.contains_cons]
  have hrecQ : reconcileImages uk fail st.blobs stored.images q.images =
      (st.blobs, [], []) := by
    rw [himg, hq]
    simp only [reconcileImages, Option.getD_some]
    rw [hdel2]
    simp
  have h1 := hred p _ hrecP rfl
  have h2 := hred q _ hrecQ rfl
  rw [h1, h2]
  refine ⟨rfl, rfl, rfl, kvGet_kvPut_self _ _ _, by simp [mergeUpdate, hp],
    rfl, rfl, rfl, kvGet_kvPut_self _ _ _, by simp [mergeUpdate, hq]⟩

/-- Update payload keeping only the first and third sample image. -/
def pEx : UpdatePayload :=
  { emptyPayload with
    images := some ["https://img.example/a.png", "https://img.example/c.png"] }

/-- Update payload keeping all sample images and adding a new one. -/
def qEx : UpdatePayload :=
  { emptyPayload with
    images := some ["https://img.example/a.png", "https://img.example/b.png",
                    "https://img.example/c.png", "https://img.example/d.png"] }

/-- Witness for C1 on the sample store: dropping the middle image deletes
exactly its key, adding a new image deletes nothing. -/
theorem update_image_reconciliation_witness :
    (handleUpdate ukEx noFailEx stEx "milo-1" (some "k1") pEx).deleteRequests
      = [["b.png"]] ∧
    (handleUpdate ukEx noFailEx stEx "milo-1" (some "k1") pEx).state.blobs
      = ["a.png", "c.png", "av.png"] ∧
    (handleUpdate ukEx noFailEx stEx "milo-1" (some "k1") qEx).deleteRequests
      = [] ∧
    (handleUpdate ukEx noFailEx stEx "milo-1" (some "k1") qEx).state.blobs
      = ["a.png", "b.png", "c.png", "av.png"] := by
  have h := update_image_reconciliation ukEx noFailEx stEx "milo-1" mEx
    "https://img.example/a.png" "https://img.example/b.png"
    "https://img.example/c.png" "https://img.example/d.png" "b.png" pEx qEx
    (by rfl) (by rfl) (by decide) (by decide) (by decide) (by rfl) (by decide)
    (by rfl) (by rfl) (by rfl)
  have e1 : handleUpdate ukEx noFailEx stEx "milo-1" (some "k1") pEx =
      handleUpdate ukEx noFailEx stEx "milo-1" (some mEx.editKey) pEx := rfl
  have e2 : handleUpdate ukEx noFailEx stEx "milo-1" (some "k1") qEx =
      handleUpdate ukEx noFailEx stEx "milo-1" (some mEx.editKey) qEx := rfl
  refine ⟨h.2.1, ?_, h.2.2.2.2.2.2.1, ?_⟩
  · rw [e1, h.2.2.1]; decide
  · rw [e2, h.2.2.2.2.2.2.2.1]; rfl

/-! ## C2: delete is all-or-nothing for the record -/

/-- C2: an authorized Delete whose batch blob deletion reports a failure
leaves the record store untouched — the record still exists and still
references all originally listed images — while a Delete whose blob
deletion succeeds removes exactly the requested keys from the bucket
and only then removes the record entry. -/
theorem delete_all_or_nothing
    (uk : String → Option String) (fail : List String → List String)
    (st : WorldState) (slug : String) (m : Memorial)
    (hm : kvGet st.kv slug = some m) (hek : m.editKey ≠ "") :
    (objectKeysOf uk m.images ≠ [] →
      fail (objectKeysOf uk m.images) ≠ [] →
      (handleDelete uk fail st slug (some m.editKey)).status = 500 ∧
      (handleDelete uk fail st slug (some m.editKey)).state.kv = st.kv ∧
      kvGet (handleDelete uk fail st slug (some m.editKey)).state.kv slug
        = some m) ∧
    (fail (objectKeysOf uk m.images) = [] →
      (handleDelete uk fail st slug (some m.editKey)).status = 204 ∧
      kvGet (handleDelete uk fail st slug (some m.editKey)).state.kv slug
        = none ∧
      (handleDelete uk fail st slug (some m.editKey)).state.blobs
        = st.blobs.filter (fun k => !((objectKeysOf uk m.images).contains k))) := by
  have hbase : handleDelete uk fail st slug (some m.editKey) =
      handleDeleteFound uk fail st slug m m.editKey := by
    simp [handleDelete, hek, hm]
  constructor
  · intro hkeys hfail
    have himgs : m.images ≠ [] := by
      intro h0
      exact hkeys (by rw [h0]; rfl)
    rw [hbase, handleDeleteFound]
    simp only [ne_eq, not_true_eq_false, if_neg (by simp : ¬ m.editKey ≠ m.editKey),
      if_neg himgs, if_neg hkeys, r2DeleteObjects]
    simp [hfail, hm]
  · intro hok
    rw [hbase, handleDeleteFound]
    simp only [ne_eq, not_true_eq_false, if_neg (by simp : ¬ m.editKey ≠ m.editKey)]
    by_cases himgs : m.images = []
    · have hk0 : objectKeysOf uk ([] : List String) = [] := rfl
      simp [himgs, kvGet_kvDelete_self, hk0, List.filter_eq_self]
    · by_cases hkeys : objectKeysOf uk m.images = []
      · simp [himgs, hkeys, kvGet_kvDelete_self, List.filter_eq_self]
      · simp only [if_neg himgs, if_neg hkeys, r2DeleteObjects, hok]
        simp [kvGet_kvDelete_self]

/-- Witness for C2: with every key failing, the sample delete returns 500
and the record survives; with no key failing it returns 204 and the
record is gone. -/
theorem delete_all_or_nothing_witness :
    (handleDelete ukEx allFailEx stEx "milo-1" (some "k1")).status = 500 ∧
    kvGet (handleDelete ukEx allFailEx stEx "milo-1" (some "k1")).state.kv
      "milo-1" = some mEx ∧
    (handleDelete ukEx noFailEx stEx "milo-1" (some "k1")).status = 204 ∧
    kvGet (handleDelete ukEx noFailEx stEx "milo-1" (some "k1")).state.kv
      "milo-1" = none := by
  have hA := delete_all_or_nothing ukEx allFailEx stEx "milo-1" mEx
    (by rfl) (by decide)
  have hB := delete_all_or_nothing ukEx noFailEx stEx "milo-1" mEx
    (by rfl) (by decide)
  have h1 := hA.1 (by decide) (by decide)
  have h2 := hB.2 (by rfl)
  exact ⟨h1.1, h1.2.2, h2.1, h2.2.1⟩

/-! ## C3: storage failure aborts the update -/

/-- C3: when an authorized Update's reconciliation issues a blob deletion
and the object store reports a failure, the handler answers 500 and the
record store is not written: the stored record is unchanged and still
references its original images. -/
theorem update_storage_failure_aborts
    (uk : String → Option String) (fail : List String → List String)
    (st : WorldState) (slug : String) (stored : Memorial) (p : UpdatePayload)
    (hm : kvGet st.kv slug = some stored) (hek : stored.editKey ≠ "")
    (hkeys : objectKeysOf uk
      (stored.images.filter (fun u => !((p.images.getD []).contains u))) ≠ [])
    (hfail : fail (objectKeysOf uk
      (stored.images.filter (fun u => !((p.images.getD []).contains u)))) ≠ []) :
    (handleUpdate uk fail st slug (some stored.editKey) p).status = 500 ∧
    (handleUpdate uk fail st slug (some stored.editKey) p).state.kv = st.kv ∧
    kvGet (handleUpdate uk fail st slug (some stored.editKey) p).state.kv slug
      = some stored := by
  have himgs :
      stored.images.filter (fun u => !((p.images.getD []).contains u)) ≠ [] := by
    intro h0
    exact hkeys (by rw [h0]; rfl)
  have hrec : reconcileImages uk fail st.blobs stored.images p.images =
      ((r2DeleteObjects fail st.blobs (objectKeysOf uk
          (stored.images.filter (fun u => !((p.images.getD []).contains u))))).1,
       [objectKeysOf uk
          (stored.images.filter (fun u => !((p.images.getD []).contains u)))],
       fail (objectKeysOf uk
          (stored.images.filter (fun u => !((p.images.getD []).contains u))))) := by
    simp only [reconcileImages, if_neg himgs, if_neg hkeys, r2DeleteObjects]
  have hres : handleUpdate uk fail st slug (some stored.editKey) p =
      ⟨⟨st.kv, (r2DeleteObjects fail st.blobs (objectKeysOf uk
          (stored.images.filter (fun u => !((p.images.getD []).contains u))))).1⟩,
       500, none,
       [objectKeysOf uk
          (stored.images.filter (fun u => !((p.images.getD []).contains u)))]⟩ := by
    have hfail' : fail (objectKeysOf uk
        (List.filter (fun u => !decide (u ∈ p.images.getD [])) stored.images))
        ≠ [] := by simpa using hfail
    simp [handleUpdate, hek, hm, handleUpdateFound, hrec, hfail, hfail']
  rw [hres]
  exact ⟨rfl, rfl, hm⟩

/-- Witness for C3: on the sample store with every deletion failing, the
update that drops an image answers 500 and leaves the record intact. -/
theorem update_storage_failure_aborts_witness :
    (handleUpdate ukEx allFailEx stEx "milo-1" (some "k1") pEx).status = 500 ∧
    kvGet (handleUpdate ukEx allFailEx stEx "milo-1" (some "k1") pEx).state.kv
      "milo-1" = some mEx := by
  have h := update_storage_failure_aborts ukEx allFailEx stEx "milo-1" mEx pEx
    (by rfl) (by decide) (by decide) (by decide)
  exact ⟨h.1, h.2.2⟩

/-! ## C7: omitted images field -/

/-- C7 (code bug exhibit): an authorized Update whose payload omits the
`images` field keeps the stored list in the record (the `??` merge),
but the reconciliation computes the new set from
`updateData.images || []`, i.e. treats the omitted field as the empty
list: a delete request for every stored image key is issued and those
blobs are removed from the bucket, while the 200 response commits a
record that still references all of them. -/
theorem update_omitted_images_bug :
    (handleUpdate ukEx noFailEx stEx "milo-1" (some "k1") emptyPayload).status
      = 200 ∧
    (handleUpdate ukEx noFailEx stEx "milo-1" (some "k1")
      emptyPayload).deleteRequests = [["a.png", "b.png", "c.png"]] ∧
    (handleUpdate ukEx noFailEx stEx "milo-1" (some "k1")
      emptyPayload).state.blobs = ["av.png"] ∧
    kvGet (handleUpdate ukEx noFailEx stEx "milo-1" (some "k1")
      emptyPayload).state.kv "milo-1" = some mEx ∧
    mEx.images ≠ [] := by
  exact ⟨by rfl, by rfl, by rfl, by rfl, by decide⟩

/-! ## C8: avatar handling on update and delete -/

/-- Update payload supplying a fresh avatar URL (and the unchanged image
list, to isolate the avatar behaviour). -/
def pAvNew : UpdatePayload :=
  { emptyPayload with
    images := some mEx.images
    avatar := some (some "https://img.example/new.png") }

/-- Update payload supplying an explicit `null` avatar. -/
def pAvNull : UpdatePayload :=
  { emptyPayload with
    images := some mEx.images
    avatar := some none }

/-- C8 (code bug exhibit): the worker never reads `updateData.avatar`.
An authorized Update supplying a new avatar URL answers 200 yet stores
the record unchanged (old avatar kept, no deletion issued); supplying
an explicit null likewise leaves the stored avatar in place; and Delete
removes only the `images` blobs — the avatar blob `av.png` stays in the
bucket even though the deleted record referenced it. -/
theorem update_avatar_ignored_bug :
    mEx.avatar = some "https://img.example/av.png" ∧
    (handleUpdate ukEx noFailEx stEx "milo-1" (some "k1") pAvNew).status
      = 200 ∧
    kvGet (handleUpdate ukEx noFailEx stEx "milo-1" (some "k1")
      pAvNew).state.kv "milo-1" = some mEx ∧
    (handleUpdate ukEx noFailEx stEx "milo-1" (some "k1")
      pAvNew).deleteRequests = [] ∧
    kvGet (handleUpdate ukEx noFailEx stEx "milo-1" (some "k1")
      pAvNull).state.kv "milo-1" = some mEx ∧
    (handleDelete ukEx noFailEx stEx "milo-1" (some "k1")).status = 204 ∧
    (handleDelete ukEx noFailEx stEx "milo-1" (some "k1")).state.blobs
      = ["av.png"] := by
  exact ⟨by rfl, by rfl, by rfl, by rfl, by rfl, by rfl, by rfl⟩

/-- Witness for C4: on the sample store, a missing key gives 401 and a
wrong key gives 403, both leaving the state exactly as it was. -/
theorem auth_failure_never_mutates_witness :
    handleUpdate ukEx noFailEx stEx "milo-1" none emptyPayload
      = ⟨stEx, 401, none, []⟩ ∧
    handleDelete ukEx noFailEx stEx "milo-1" (some "wrong")
      = ⟨stEx, 403, none, []⟩ := by
  have h := auth_failure_never_mutates ukEx noFailEx stEx "milo-1" mEx
    emptyPayload "wrong" (by rfl) (by decide) (by decide)
  exact ⟨h.1, h.2.2.2.2.2⟩
